import Mathlib

/-!
Verification of the sync-clip clipboard-synchronization network layer.

This file shallowly embeds the Python sources of the repository:
  src/src/interfaces/__init__.py        (data model)
  src/src/platforms/network.py          (UDP transport: codec, dedup, registry, bind loop)
  src/src/platforms/websocket_network.py (persistent transport: broadcast, disconnect)
  src/src/core/clipboard_manager.py     (history ring buffer)

Modelling conventions:
  - Python floats (timestamps) are modelled as Int; the code only stores,
    compares and subtracts them.
  - The JSON text layer is modelled by the Json value type below: json.dumps
    followed by json.loads is the identity on JSON-safe dictionaries, so the
    wire carries Json values; a datagram whose bytes fail UTF-8 or JSON
    parsing is modelled as the wire value Option.none (see
    deserialize_packet_wire).
  - Python's base64.b64encode / base64.b64decode are modelled by executable
    functions below; b64decode first discards characters outside the base64
    alphabet, as binascii does with validate=False.
  - Python's built-in hash on strings is randomized per process but fixed
    within one; it is passed as an explicit parameter pyHash to the packet
    handler.
  - Python dicts are modelled as association lists in insertion order with
    unique keys; CPython set iteration order (used only by the dedup
    eviction, which the spec itself flags as unspecified) is modelled as
    insertion order.
-/

/-- A JSON value, the payload universe of the wire protocol. Numbers are
modelled as Int (timestamps are the only numbers the code manipulates). -/
inductive Json where
  | null : Json
  | bool (b : Bool) : Json
  | num (n : Int) : Json
  | str (s : String) : Json
  | arr (xs : List Json) : Json
  | obj (kvs : List (String × Json)) : Json

/-- Lookup in a Python dict modelled as an association list (first match). -/
def dictGet {β : Type} : List (String × β) → String → Option β
  | [], _ => none
  | (k₁, v₁) :: rest, k => if k₁ = k then some v₁ else dictGet rest k

/-- Assignment d[k] = v in a Python dict: replace in place, else append. -/
def dictSet {β : Type} : List (String × β) → String → β → List (String × β)
  | [], k, v => [(k, v)]
  | (k₁, v₁) :: rest, k, v =>
      if k₁ = k then (k, v) :: rest else (k₁, v₁) :: dictSet rest k v

/-- Deletion del d[k] in a Python dict (keys are unique, so first match). -/
def dictRemove {β : Type} : List (String × β) → String → List (String × β)
  | [], _ => []
  | (k₁, v₁) :: rest, k => if k₁ = k then rest else (k₁, v₁) :: dictRemove rest k

/-- ClipboardType from interfaces/__init__.py: TEXT = "text", IMAGE = "image". -/
inductive ClipboardType where
  | text : ClipboardType
  | image : ClipboardType
deriving DecidableEq

/-- The .value of a ClipboardType member. -/
def ClipboardType.value : ClipboardType → String
  | .text => "text"
  | .image => "image"

/-- The content slot of ClipboardData is Any in Python; the code stores either
a text string or a binary blob (a bytes object, a list of byte values). -/
inductive Content where
  | text (s : String) : Content
  | image (bytes : List Nat) : Content
deriving DecidableEq

/-- ClipboardData from interfaces/__init__.py. -/
structure ClipboardData where
  content : Content
  type : ClipboardType
  timestamp : Int
  device_name : String
deriving DecidableEq

/-- DeviceInfo from interfaces/__init__.py. -/
structure DeviceInfo where
  name : String
  ip_address : String
  last_seen : Int
  platform : String
deriving DecidableEq

/-- NetworkPacket from interfaces/__init__.py; data defaults to None, which
JSON carries as null, so the absent payload is Json.null here. -/
structure NetworkPacket where
  packet_type : String
  sender_name : String
  sender_ip : String
  timestamp : Int
  data : Json

/-- The base64 alphabet, position i holding the character for sextet i. -/
def b64Alphabet : List Char :=
  "ABCDEFGHIJKLMNOPQRSTUVWXYZabcdefghijklmnopqrstuvwxyz0123456789+/".data

/-- Character encoding a sextet. -/
def b64char (n : Nat) : Char := b64Alphabet.getD n 'A'

/-- Position of a character in a list, counting from i. -/
def b64indexAux : List Char → Nat → Char → Option Nat
  | [], _, _ => none
  | a :: rest, i, c => if a = c then some i else b64indexAux rest (i + 1) c

/-- Sextet encoded by a character, none for characters outside the alphabet. -/
def b64index (c : Char) : Option Nat := b64indexAux b64Alphabet 0 c

/-- Base64 encoding of a byte sequence, three bytes to four characters with
trailing '=' padding, as base64.b64encode produces. -/
def b64encodeChars : List Nat → List Char
  | [] => []
  | [a] => [b64char (a / 4), b64char (a % 4 * 16), '=', '=']
  | [a, b] => [b64char (a / 4), b64char (a % 4 * 16 + b / 16), b64char (b % 16 * 4), '=']
  | a :: b :: c :: rest =>
      b64char (a / 4) :: b64char (a % 4 * 16 + b / 16) ::
      b64char (b % 16 * 4 + c / 64) :: b64char (c % 64) :: b64encodeChars rest

/-- Base64 decoding of a cleaned character sequence: four characters to three
bytes, '=' padding only closing the final group, none on any other shape
(binascii raises on such input and _deserialize_clipboard_data catches it). -/
def b64decodeChars : List Char → Option (List Nat)
  | [] => some []
  | c1 :: c2 :: c3 :: c4 :: rest =>
      match b64index c1, b64index c2 with
      | some s1, some s2 =>
          if c3 = '=' then
            if c4 = '=' then
              if rest = [] then some [s1 * 4 + s2 / 16] else none
            else none
          else
            match b64index c3 with
            | some s3 =>
                if c4 = '=' then
                  if rest = [] then some [s1 * 4 + s2 / 16, s2 % 16 * 16 + s3 / 4]
                  else none
                else
                  match b64index c4 with
                  | some s4 =>
                      match b64decodeChars rest with
                      | some tail =>
                          some ((s1 * 4 + s2 / 16) :: (s2 % 16 * 16 + s3 / 4) ::
                                (s3 % 4 * 64 + s4) :: tail)
                      | none => none
                  | none => none
            | none => none
      | _, _ => none
  | _ => none

/-- Character kept by binascii's pre-scan: alphabet members and padding. -/
def isB64Char (c : Char) : Bool := (b64index c).isSome || c = '='

/-- base64.b64encode of a bytes value, as the UTF-8 text the codec embeds. -/
def base64_b64encode (bs : List Nat) : String := String.mk (b64encodeChars bs)

/-- base64.b64decode with validate=False: characters outside the alphabet are
discarded, then groups of four are decoded; none models binascii.Error. -/
def base64_b64decode (s : String) : Option (List Nat) :=
  b64decodeChars (s.data.filter isB64Char)

/-- Hexadecimal digit used by the byte-escape of Python's bytes repr. -/
def hexDigit (n : Nat) : Char :=
  "0123456789abcdef".data.getD n '0'

/-- Escape of one byte inside str(bytes): printable ASCII passes through,
tab, newline, carriage return, backslash and the quote are escaped, the
rest become a hex escape. -/
def pyByteEscape (b : Nat) : List Char :=
  if b = 9 then ['\\', 't']
  else if b = 10 then ['\\', 'n']
  else if b = 13 then ['\\', 'r']
  else if b = 92 then ['\\', '\\']
  else if b = 39 then ['\\', Char.ofNat 39]
  else if 32 ≤ b && b ≤ 126 then [Char.ofNat b]
  else ['\\', 'x', hexDigit (b / 16 % 16), hexDigit (b % 16)]

/-- Python str() of a clipboard content value, as used to build the dedup
key: the identity on text, the repr of a bytes blob for an image. (Python
switches to double quotes when the bytes contain a single quote and no
double quote; the single-quoted form with the quote escaped is used
uniformly here, which keeps equal contents mapping to equal strings.) -/
def str_of_content : Content → String
  | .text s => s
  | .image bs =>
      String.mk ('b' :: Char.ofNat 39 :: (bs.flatMap pyByteEscape ++ [Char.ofNat 39]))

/-- _serialize_packet (network.py line 68): the JSON object json.dumps
renders; the byte/text encoding between dumps and loads is the identity on
Json values (see the header comment). -/
def serialize_packet (packet : NetworkPacket) : Json :=
  .obj [("packet_type", .str packet.packet_type),
        ("sender_name", .str packet.sender_name),
        ("sender_ip", .str packet.sender_ip),
        ("timestamp", .num packet.timestamp),
        ("data", packet.data)]

/-- _deserialize_packet (network.py line 79): reads the four required keys
(a missing key raises KeyError, caught by the blanket except which returns
None), takes data with .get (absent gives None, i.e. null). The embedding
restricts to fields of the JSON types the rest of the code stores there
(string names and type, numeric timestamp); Python performs no type check
on them. Note: the packet_type value itself is NOT validated here. -/
def deserialize_packet (j : Json) : Option NetworkPacket :=
  match j with
  | .obj kvs =>
      match dictGet kvs "packet_type", dictGet kvs "sender_name",
            dictGet kvs "sender_ip", dictGet kvs "timestamp" with
      | some (.str pt), some (.str sn), some (.str si), some (.num ts) =>
          some ⟨pt, sn, si, ts, (dictGet kvs "data").getD .null⟩
      | _, _, _, _ => none
  | _ => none

/-- A datagram's bytes either parse to a Json value or fail UTF-8/JSON
parsing, in which case json.loads raises, the blanket except in
_deserialize_packet catches, and None is returned. -/
def deserialize_packet_wire (w : Option Json) : Option NetworkPacket :=
  match w with
  | none => none
  | some j => deserialize_packet j

/-- _serialize_clipboard_data (network.py line 94): builds the payload dict
with type, timestamp, device_name and then content; text content passes
through, image content is base64-encoded. A content value whose shape does
not match the declared type makes the later json.dumps (text carrying
bytes) or b64encode (image carrying text) raise, modelled as none. -/
def serialize_clipboard_data (data : ClipboardData) : Option Json :=
  match data.type, data.content with
  | .text, .text s =>
      some (.obj [("type", .str "text"),
                  ("timestamp", .num data.timestamp),
                  ("device_name", .str data.device_name),
                  ("content", .str s)])
  | .image, .image bs =>
      some (.obj [("type", .str "image"),
                  ("timestamp", .num data.timestamp),
                  ("device_name", .str data.device_name),
                  ("content", .str (base64_b64encode bs))])
  | _, _ => none

/-- ClipboardType(value): "text" and "image" are the members, any other
value raises ValueError, which the deserializer catches and maps to None. -/
def parse_clipboard_type : Json → Option ClipboardType
  | .str "text" => some .text
  | .str "image" => some .image
  | _ => none

/-- Content extraction of _deserialize_clipboard_data: image content is
base64-decoded (failure gives None); text content is re-encoded through
UTF-8, the identity on strings. The embedding restricts text content to
JSON strings; Python would keep a non-string value unchanged. -/
def decode_content : ClipboardType → Json → Option Content
  | .text, .str s => some (.text s)
  | .text, _ => none
  | .image, .str s => (base64_b64decode s).map .image
  | .image, _ => none

/-- float(x) applied to the timestamp field: the identity on JSON numbers;
non-numeric values make it raise, caught by the blanket except. (Python
additionally accepts numeric strings and booleans; the claims never
exercise those.) -/
def as_float : Json → Option Int
  | .num n => some n
  | _ => none

/-- str(x) applied to the device_name field: the embedding restricts to
string values, the only ones the sender ever produces; Python coerces any
value. -/
def as_str : Json → Option String
  | .str s => some s
  | _ => none

/-- _deserialize_clipboard_data (network.py line 110): the four required
fields are checked in order (content, type, timestamp, device_name), the
type string is parsed, image content is base64-decoded, and the record is
built with float(timestamp) and str(device_name); every failure returns
None. -/
def deserialize_clipboard_data (d : Json) : Option ClipboardData :=
  match d with
  | .obj kvs =>
      match dictGet kvs "content" with
      | none => none
      | some content0 =>
          match dictGet kvs "type" with
          | none => none
          | some tj =>
              match dictGet kvs "timestamp" with
              | none => none
              | some tsj =>
                  match dictGet kvs "device_name" with
                  | none => none
                  | some dnj =>
                      match parse_clipboard_type tj with
                      | none => none
                      | some ctype =>
                          match decode_content ctype content0 with
                          | none => none
                          | some content =>
                              match as_float tsj, as_str dnj with
                              | some ts, some dn => some ⟨content, ctype, ts, dn⟩
                              | _, _ => none
  | _ => none

/-- Externally observable effects of the network layer: invocations of the
clipboard callback and of the device callback, and the announce reply a
discovery request triggers. -/
inductive NetEvent where
  | clipboard_received (d : ClipboardData) : NetEvent
  | device_joined (d : DeviceInfo) : NetEvent
  | device_left (d : DeviceInfo) : NetEvent
  | announce_reply : NetEvent
deriving DecidableEq

/-- Mutable state of a UDPClipboardNetwork instance (network.py line 17):
own identity, the connected-device dict, the dedup set (kept in insertion
order, see the header comment), whether the two callbacks are registered,
and the listening flag. -/
structure UDPState where
  device_name : String
  device_ip : String
  connected_devices : List (String × DeviceInfo)
  processed_clipboard_data : List String
  has_clipboard_callback : Bool
  has_device_callback : Bool
  listening : Bool

/-- data.get of the platform field in the presence branch of _handle_packet:
'Unknown' when data is falsy or the key is absent. The embedding restricts
to null or object data carrying a string platform (see data_ok); Python
would store a non-string value, and raise on truthy non-dict data. -/
def platform_of (d : Json) : String :=
  match d with
  | .obj kvs =>
      match dictGet kvs "platform" with
      | some (.str s) => s
      | _ => "Unknown"
  | _ => "Unknown"

/-- Packet data shapes on which the embedding of the presence branch is
exact: absent (null) or a JSON object. -/
def data_ok (d : Json) : Bool :=
  match d with
  | .null => true
  | .obj _ => true
  | _ => false

/-- _update_device (network.py line 268): key name@ip, insert or refresh,
and a device_joined callback exactly on the absent-to-present transition. -/
def update_device (st : UDPState) (device_info : DeviceInfo) :
    UDPState × List NetEvent :=
  let device_id := device_info.name ++ "@" ++ device_info.ip_address
  let is_new := (dictGet st.connected_devices device_id).isNone
  let st' := { st with
    connected_devices := dictSet st.connected_devices device_id device_info }
  (st', if is_new && st.has_device_callback then [.device_joined device_info] else [])

/-- The dedup key data_id built in _handle_packet (network.py line 309):
sender id, payload timestamp, and the Python hash of the first 100
characters of str(content). pyHash stands for the per-process string hash. -/
def data_id (pyHash : String → Int) (packet : NetworkPacket)
    (clipboard_data : ClipboardData) : String :=
  packet.sender_name ++ "@" ++ packet.sender_ip ++ ":" ++
    toString clipboard_data.timestamp ++ ":" ++
    toString (pyHash ((str_of_content clipboard_data.content).take 100))

/-- _handle_packet (network.py line 279): self-packets are ignored; presence
packets upsert the registry and a discovery additionally triggers an
announce reply; clipboard packets are deserialized, deduplicated by data_id
(with the over-100 eviction dropping the oldest 50 entries) and delivered
to the clipboard callback; any other packet type is only logged. -/
def handle_packet (pyHash : String → Int) (st : UDPState)
    (packet : NetworkPacket) : UDPState × List NetEvent :=
  if packet.sender_name = st.device_name ∧ packet.sender_ip = st.device_ip then
    (st, [])
  else if packet.packet_type = "device_announce" ∨
          packet.packet_type = "device_discovery" ∨
          packet.packet_type = "device_heartbeat" then
    let device_info : DeviceInfo :=
      ⟨packet.sender_name, packet.sender_ip, packet.timestamp, platform_of packet.data⟩
    let r := update_device st device_info
    if packet.packet_type = "device_discovery" then
      (r.1, r.2 ++ [.announce_reply])
    else r
  else if packet.packet_type = "clipboard_data" then
    match deserialize_clipboard_data packet.data with
    | some clipboard_data =>
        if st.has_clipboard_callback then
          let id := data_id pyHash packet clipboard_data
          if id ∈ st.processed_clipboard_data then (st, [])
          else
            let ps := st.processed_clipboard_data ++ [id]
            let ps := if ps.length > 100 then ps.drop 50 else ps
            ({ st with processed_clipboard_data := ps },
             [.clipboard_received clipboard_data])
        else (st, [])
    | none => (st, [])
  else (st, [])

/-- One pass of the receive loop body of _listen_loop (network.py line 378):
a datagram that deserializes is dispatched to _handle_packet, one that does
not is dropped; the loop keeps running either way (the listening flag is
only written by start/stop). -/
def listen_step (pyHash : String → Int) (st : UDPState)
    (datagram : Option Json) : UDPState × List NetEvent :=
  match deserialize_packet_wire datagram with
  | some packet => handle_packet pyHash st packet
  | none => (st, [])

/-- One pass of _cleanup_devices (network.py line 246): every device whose
last_seen is more than the timeout in the past is deleted and reported to
the device callback. -/
def cleanup_devices_step (current_time : Int) (device_timeout : Int)
    (st : UDPState) : UDPState × List NetEvent :=
  let inactive := st.connected_devices.filter
    (fun e => decide (current_time - e.2.last_seen > device_timeout))
  let remaining := st.connected_devices.filter
    (fun e => ! decide (current_time - e.2.last_seen > device_timeout))
  ({ st with connected_devices := remaining },
   if st.has_device_callback
   then inactive.map (fun e => .device_left e.2) else [])

/-- The bind retry loop of _listen_loop (network.py line 353): up to n
attempts, moving to the next port after an address-in-use error. inUse
abstracts the OS answer per port. -/
def try_bind (inUse : Nat → Bool) : Nat → Nat → Option Nat
  | 0, _ => none
  | n + 1, port => if inUse port then try_bind inUse n (port + 1) else some port

/-- Outcome of the socket setup in _listen_loop: a successful bind, or the
raise on exhaustion which the enclosing blanket except of _listen_loop
catches and prints, ending the listener thread. -/
inductive ListenSetup where
  | bound (port : Nat) : ListenSetup
  | setup_error_logged : ListenSetup
deriving DecidableEq

/-- What the caller of start_listening observes. -/
inductive StartResult where
  | ok : StartResult
  | raised : StartResult
deriving DecidableEq

/-- Socket setup of _listen_loop: ten bind attempts, then either listening
on the bound port, or the internal raise that its own except clause turns
into a log line. -/
def listen_loop_setup (inUse : Nat → Bool) (port : Nat) : ListenSetup :=
  match try_bind inUse 10 port with
  | some p => .bound p
  | none => .setup_error_logged

/-- start_listening (network.py line 415) spawns the listener thread and
returns None unconditionally: the caller observes ok whatever the bind
outcome inside the thread, which is reported alongside. -/
def start_listening_outcome (inUse : Nat → Bool) (port : Nat) :
    StartResult × ListenSetup :=
  (.ok, listen_loop_setup (inUse) (port))

/-- collections.deque(maxlen=cap).append: the new element enters at the
right and, when the deque is full, the leftmost (earliest) element is
discarded; a zero capacity keeps the deque empty. -/
def dequeAppend {α : Type} (cap : Nat) (xs : List α) (x : α) : List α :=
  (xs ++ [x]).drop (xs.length + 1 - cap)

/-- State of a ClipboardManager (clipboard_manager.py line 16): the history
capacity max_history, the retained history (leftmost entry oldest), and the
image directory path. -/
structure MgrState where
  max_history : Nat
  history : List ClipboardData
  data_dir : String

/-- Side effects of a local capture: possibly an image file written, and the
broadcast_clipboard call handed to the network. -/
inductive MgrEvent where
  | image_saved (d : ClipboardData) : MgrEvent
  | broadcasted (d : ClipboardData) : MgrEvent
deriving DecidableEq

/-- The filepath _save_image_data writes, data_dir / device_name _ int(ts)
.png; the method then replaces content by this path string in place. -/
def save_image_path (dir : String) (d : ClipboardData) : String :=
  dir ++ "/" ++ d.device_name ++ "_" ++ toString d.timestamp ++ ".png"

/-- The value a capture leaves in history: _save_image_data mutates the very
object already appended, so an image entry ends up holding the path string
in content; a text entry is untouched. -/
def stored_entry (dir : String) (d : ClipboardData) : ClipboardData :=
  if d.type = .image then { d with content := .text (save_image_path dir d) } else d

/-- _on_local_clipboard_change (clipboard_manager.py line 37): append to the
bounded history, save an image payload (mutating the stored entry), then
broadcast (the broadcast sees the mutated object too). -/
def on_local_clipboard_change (st : MgrState) (data : ClipboardData) :
    MgrState × List MgrEvent :=
  let stored := stored_entry st.data_dir data
  ({ st with history := dequeAppend st.max_history st.history stored },
   (if data.type = .image then [.image_saved data] else []) ++ [.broadcasted stored])

/-- A sequence of local captures, keeping only the evolving state. -/
def capture_all (st : MgrState) (ds : List ClipboardData) : MgrState :=
  ds.foldl (fun s d => (on_local_clipboard_change s d).1) st

/-- State of a WebSocketClipboardNetwork instance (websocket_network.py
line 19) relevant to broadcast and disconnect: the live client connections
keyed ip:port, the device registry keyed name@ip, and whether the device
callback is registered. -/
structure WSState where
  clients : List String
  connected_devices : List (String × DeviceInfo)
  has_device_callback : Bool

/-- _broadcast_packet (websocket_network.py line 256): send to every client,
collect the ones whose send raised, then drop exactly those from the client
dict. sendOk abstracts per-connection send success. Returned alongside the
new state: the clients the message reached, and the device events fired
here (none: this path only removes connections). -/
def ws_broadcast_packet (sendOk : String → Bool) (st : WSState) :
    WSState × List String × List NetEvent :=
  let delivered := st.clients.filter (fun c => sendOk c)
  let disconnected := st.clients.filter (fun c => ! sendOk c)
  ({ st with clients := st.clients.filter (fun c => ! disconnected.contains c) },
   delivered, [])

/-- The finally block of _handle_client (websocket_network.py line 198),
run when a client's receive loop ends: remove the connection, then look the
departing client up in the device registry under the key device_id =
client_id (an ip:port string) and, when found, delete it and fire
device_left. -/
def ws_handle_client_finally (st : WSState) (client_id : String) :
    WSState × List NetEvent :=
  let st₁ := { st with clients := st.clients.filter (fun c => ! (c == client_id)) }
  match dictGet st₁.connected_devices client_id with
  | some device =>
      ({ st₁ with connected_devices := dictRemove st₁.connected_devices client_id },
       if st.has_device_callback then [.device_left device] else [])
  | none => (st₁, [])

theorem b64index_b64char_fin : ∀ n : Fin 64, b64index (b64char n.val) = some n.val := by
  decide

theorem b64index_b64char {n : Nat} (h : n < 64) : b64index (b64char n) = some n :=
  b64index_b64char_fin ⟨n, h⟩

theorem b64char_ne_pad_fin : ∀ n : Fin 64, b64char n.val ≠ '=' := by
  decide

theorem b64char_ne_pad {n : Nat} (h : n < 64) : b64char n ≠ '=' :=
  b64char_ne_pad_fin ⟨n, h⟩

theorem isB64Char_b64char {n : Nat} (h : n < 64) : isB64Char (b64char n) = true := by
  simp [isB64Char, b64index_b64char h]

theorem mem_b64encodeChars_isB64Char :
    ∀ (bs : List Nat), (∀ b ∈ bs, b < 256) →
      ∀ c ∈ b64encodeChars bs, isB64Char c = true
  | [], _ => by simp [b64encodeChars]
  | [a], h => by
      have ha : a < 256 := h a (by simp)
      intro c hc
      simp only [b64encodeChars, List.mem_cons, List.not_mem_nil, or_false] at hc
      rcases hc with rfl | rfl | rfl | rfl
      · exact isB64Char_b64char (by omega)
      · exact isB64Char_b64char (by omega)
      · simp [isB64Char]
      · simp [isB64Char]
  | [a, b], h => by
      have ha : a < 256 := h a (by simp)
      have hb : b < 256 := h b (by simp)
      intro c hc
      simp only [b64encodeChars, List.mem_cons, List.not_mem_nil, or_false] at hc
      rcases hc with rfl | rfl | rfl | rfl
      · exact isB64Char_b64char (by omega)
      · exact isB64Char_b64char (by omega)
      · exact isB64Char_b64char (by omega)
      · simp [isB64Char]
  | a :: b :: c :: rest, h => by
      have ha : a < 256 := h a (by simp)
      have hb : b < 256 := h b (by simp)
      have hc' : c < 256 := h c (by simp)
      have ih := mem_b64encodeChars_isB64Char rest
        (fun x hx => h x (List.mem_cons_of_mem a
          (List.mem_cons_of_mem b (List.mem_cons_of_mem c hx))))
      intro ch hch
      simp only [b64encodeChars, List.mem_cons] at hch
      rcases hch with rfl | rfl | rfl | rfl | hch
      · exact isB64Char_b64char (by omega)
      · exact isB64Char_b64char (by omega)
      · exact isB64Char_b64char (by omega)
      · exact isB64Char_b64char (by omega)
      · exact ih ch hch

theorem filter_b64encodeChars (bs : List Nat) (h : ∀ b ∈ bs, b < 256) :
    (b64encodeChars bs).filter isB64Char = b64encodeChars bs :=
  List.filter_eq_self.mpr (mem_b64encodeChars_isB64Char bs h)

theorem b64decodeChars_b64encodeChars :
    ∀ (bs : List Nat), (∀ b ∈ bs, b < 256) →
      b64decodeChars (b64encodeChars bs) = some bs
  | [], _ => rfl
  | [a], h => by
      have ha : a < 256 := h a (by simp)
      have h1 : a / 4 < 64 := by omega
      have h2 : a % 4 * 16 < 64 := by omega
      simp only [b64encodeChars, b64decodeChars,
        b64index_b64char h1, b64index_b64char h2]
      simp only [reduceIte, Option.some.injEq, List.cons.injEq, and_true]
      omega
  | [a, b], h => by
      have ha : a < 256 := h a (by simp)
      have hb : b < 256 := h b (by simp)
      have h1 : a / 4 < 64 := by omega
      have h2 : a % 4 * 16 + b / 16 < 64 := by omega
      have h3 : b % 16 * 4 < 64 := by omega
      simp only [b64encodeChars, b64decodeChars,
        b64index_b64char h1, b64index_b64char h2, b64index_b64char h3]
      rw [if_neg (b64char_ne_pad h3)]
      simp only [reduceIte, Option.some.injEq, List.cons.injEq, and_true]
      omega
  | a :: b :: c :: rest, h => by
      have ha : a < 256 := h a (by simp)
      have hb : b < 256 := h b (by simp)
      have hc : c < 256 := h c (by simp)
      have h1 : a / 4 < 64 := by omega
      have h2 : a % 4 * 16 + b / 16 < 64 := by omega
      have h3 : b % 16 * 4 + c / 64 < 64 := by omega
      have h4 : c % 64 < 64 := by omega
      have ih := b64decodeChars_b64encodeChars rest
        (fun x hx => h x (List.mem_cons_of_mem a
          (List.mem_cons_of_mem b (List.mem_cons_of_mem c hx))))
      show b64decodeChars (b64char (a / 4) :: b64char (a % 4 * 16 + b / 16) ::
        b64char (b % 16 * 4 + c / 64) :: b64char (c % 64) :: b64encodeChars rest) = _
      simp only [b64decodeChars, b64index_b64char h1, b64index_b64char h2,
        b64index_b64char h3, b64index_b64char h4]
      rw [if_neg (b64char_ne_pad h3), if_neg (b64char_ne_pad h4), ih]
      simp only [Option.some.injEq, List.cons.injEq]
      refine ⟨by omega, by omega, by omega, trivial⟩

theorem base64_roundtrip (bs : List Nat) (h : ∀ b ∈ bs, b < 256) :
    base64_b64decode (base64_b64encode bs) = some bs := by
  unfold base64_b64decode base64_b64encode
  rw [show (String.mk (b64encodeChars bs)).data = b64encodeChars bs from rfl]
  rw [filter_b64encodeChars bs h, b64decodeChars_b64encodeChars bs h]

/-- A ClipboardData value is valid when its content shape matches its
declared type and image bytes are genuine byte values. -/
def validClipboardB (d : ClipboardData) : Bool :=
  match d.type, d.content with
  | .text, .text _ => true
  | .image, .image bs => bs.all (fun b => decide (b < 256))
  | _, _ => false

/-- C1: for every valid packet p, including packets carrying a text or an
image clipboard payload, deserializing the serialization gives back an
equal packet, and for every valid ClipboardData d the payload codec round
trips: image content is restored as the original bytes through base64 and
text content is unchanged. -/
theorem roundtrip_decode_encode :
    (∀ p : NetworkPacket, deserialize_packet (serialize_packet p) = some p) ∧
    (∀ d : ClipboardData, validClipboardB d = true →
      (serialize_clipboard_data d).bind deserialize_clipboard_data = some d) := by
  constructor
  · intro p
    rfl
  · intro d h
    obtain ⟨content, ty, ts, name⟩ := d
    cases ty <;> cases content <;> simp [validClipboardB] at h <;>
      simp only [serialize_clipboard_data, Option.bind_some, Option.some_bind,
        deserialize_clipboard_data, dictGet, parse_clipboard_type, decode_content,
        as_float, as_str]
    · rfl
    · rename_i bs
      simp [base64_roundtrip bs h]

/-- Witness for roundtrip_decode_encode at a concrete text payload and a
concrete three-byte image payload. -/
theorem roundtrip_decode_encode_witness :
    validClipboardB ⟨.text "hello", .text, 5, "X"⟩ = true ∧
    validClipboardB ⟨.image [137, 80, 78, 71], .image, 6, "Y"⟩ = true ∧
    (serialize_clipboard_data ⟨.text "hello", .text, 5, "X"⟩).bind
      deserialize_clipboard_data = some ⟨.text "hello", .text, 5, "X"⟩ ∧
    (serialize_clipboard_data ⟨.image [137, 80, 78, 71], .image, 6, "Y"⟩).bind
      deserialize_clipboard_data = some ⟨.image [137, 80, 78, 71], .image, 6, "Y"⟩ :=
  ⟨by decide, by decide,
   roundtrip_decode_encode.2 ⟨.text "hello", .text, 5, "X"⟩ (by decide),
   roundtrip_decode_encode.2 ⟨.image [137, 80, 78, 71], .image, 6, "Y"⟩ (by decide)⟩

/-- C3 counterexample: packet decoding does not reject an unknown
packet_type. A JSON object with packet_type "totally_bogus" and all four
required fields decodes to a packet rather than to the error value None;
the drop happens only later, in the handler's fallthrough branch. -/
theorem deserialize_packet_accepts_unknown_type :
    deserialize_packet (.obj [("packet_type", .str "totally_bogus"),
                              ("sender_name", .str "a"),
                              ("sender_ip", .str "b"),
                              ("timestamp", .num 1)]) =
      some ⟨"totally_bogus", "a", "b", 1, .null⟩ := rfl

/-- C3 amended: packet decoding is a total function into an option — it
returns None, never an exception, on undecodable bytes, on non-object JSON
and on objects missing a required field; an unknown packet_type is NOT
rejected by decoding (see the counterexample), but the handler drops such a
packet with no state change and no callback; and after any undecodable
input the receive loop leaves the state (including the listening flag)
unchanged and continues. -/
theorem decode_rejects_malformed_and_loop_continues :
    (∀ kvs : List (String × Json),
      dictGet kvs "packet_type" = none ∨ dictGet kvs "sender_name" = none ∨
      dictGet kvs "sender_ip" = none ∨ dictGet kvs "timestamp" = none →
      deserialize_packet (.obj kvs) = none) ∧
    (∀ j : Json, (match j with | .obj _ => False | _ => True) →
      deserialize_packet j = none) ∧
    (deserialize_packet_wire none = none) ∧
    (∀ (pyHash : String → Int) (st : UDPState) (p : NetworkPacket),
      p.packet_type ≠ "device_announce" → p.packet_type ≠ "device_discovery" →
      p.packet_type ≠ "device_heartbeat" → p.packet_type ≠ "clipboard_data" →
      handle_packet pyHash st p = (st, [])) ∧
    (∀ (pyHash : String → Int) (st : UDPState) (w : Option Json),
      deserialize_packet_wire w = none → listen_step pyHash st w = (st, [])) := by
  refine ⟨?_, ?_, rfl, ?_, ?_⟩
  · intro kvs h
    unfold deserialize_packet
    split
    · rcases h with h | h | h | h <;> simp_all
    · rename_i j hcontra
      exact absurd rfl (hcontra kvs)
  · intro j hj
    cases j <;> first | rfl | exact absurd hj (by simp)
  · intro pyHash st p h1 h2 h3 h4
    unfold handle_packet
    by_cases hself : p.sender_name = st.device_name ∧ p.sender_ip = st.device_ip
    · rw [if_pos hself]
    · rw [if_neg hself, if_neg (by simp [h1, h2, h3]), if_neg h4]
  · intro pyHash st w hw
    unfold listen_step
    rw [hw]

/-- A stand-in for the per-process Python string hash, used by witnesses. -/
def pyHash0 : String → Int := fun _ => 0

/-- A concrete receiver state used by witnesses. -/
def sampleState : UDPState :=
  ⟨"me", "10.0.0.1", [], [], true, true, true⟩

/-- Witness for decode_rejects_malformed_and_loop_continues: a payload
missing packet_type, a non-object input, an unknown-type packet dropped by
the handler, and an undecodable datagram leaving the loop state unchanged. -/
theorem decode_rejects_malformed_witness :
    deserialize_packet (.obj [("sender_name", .str "a")]) = none ∧
    deserialize_packet (.num 3) = none ∧
    handle_packet pyHash0 sampleState ⟨"device_info", "A", "1.2.3.4", 1, .null⟩ =
      (sampleState, []) ∧
    listen_step pyHash0 sampleState none = (sampleState, []) :=
  ⟨decode_rejects_malformed_and_loop_continues.1 [("sender_name", .str "a")]
     (Or.inl rfl),
   decode_rejects_malformed_and_loop_continues.2.1 (.num 3) trivial,
   decode_rejects_malformed_and_loop_continues.2.2.2.1 pyHash0 sampleState
     ⟨"device_info", "A", "1.2.3.4", 1, .null⟩
     (by decide) (by decide) (by decide) (by decide),
   decode_rejects_malformed_and_loop_continues.2.2.2.2 pyHash0 sampleState none rfl⟩

/-- C4: a clipboard_data packet whose payload misses one of the four
required fields (content, type, timestamp, device_name), carries an
unknown kind, or carries image content that is not valid base64, is
dropped: payload deserialization returns None, and the handler on such a
packet leaves the state unchanged and fires no callback. -/
theorem invalid_payload_dropped :
    (∀ kvs : List (String × Json),
      dictGet kvs "content" = none ∨ dictGet kvs "type" = none ∨
      dictGet kvs "timestamp" = none ∨ dictGet kvs "device_name" = none →
      deserialize_clipboard_data (.obj kvs) = none) ∧
    (∀ (kvs : List (String × Json)) (tj : Json),
      dictGet kvs "type" = some tj → parse_clipboard_type tj = none →
      deserialize_clipboard_data (.obj kvs) = none) ∧
    (∀ (kvs : List (String × Json)) (s : String),
      dictGet kvs "type" = some (.str "image") →
      dictGet kvs "content" = some (.str s) → base64_b64decode s = none →
      deserialize_clipboard_data (.obj kvs) = none) ∧
    (∀ (pyHash : String → Int) (st : UDPState) (p : NetworkPacket),
      p.packet_type = "clipboard_data" →
      deserialize_clipboard_data p.data = none →
      handle_packet pyHash st p = (st, [])) := by
  refine ⟨?_, ?_, ?_, ?_⟩
  · intro kvs h
    rcases hc : dictGet kvs "content" with _ | c
    · simp [deserialize_clipboard_data, hc]
    rcases ht : dictGet kvs "type" with _ | t
    · simp [deserialize_clipboard_data, hc, ht]
    rcases hts : dictGet kvs "timestamp" with _ | ts
    · simp [deserialize_clipboard_data, hc, ht, hts]
    rcases hd : dictGet kvs "device_name" with _ | dn
    · simp [deserialize_clipboard_data, hc, ht, hts, hd]
    rw [hc, ht, hts, hd] at h
    rcases h with h | h | h | h <;> exact absurd h (by simp)
  · intro kvs tj htj hparse
    rcases hc : dictGet kvs "content" with _ | c
    · simp [deserialize_clipboard_data, hc]
    rcases hts : dictGet kvs "timestamp" with _ | ts
    · simp [deserialize_clipboard_data, hc, htj, hts]
    rcases hd : dictGet kvs "device_name" with _ | dn
    · simp [deserialize_clipboard_data, hc, htj, hts, hd]
    simp [deserialize_clipboard_data, hc, htj, hts, hd, hparse]
  · intro kvs s htj hc hb64
    rcases hts : dictGet kvs "timestamp" with _ | ts
    · simp [deserialize_clipboard_data, hc, htj, hts]
    rcases hd : dictGet kvs "device_name" with _ | dn
    · simp [deserialize_clipboard_data, hc, htj, hts, hd]
    simp [deserialize_clipboard_data, hc, htj, hts, hd, parse_clipboard_type,
      decode_content, hb64]
  · intro pyHash st p hty hde
    unfold handle_packet
    by_cases hself : p.sender_name = st.device_name ∧ p.sender_ip = st.device_ip
    · rw [if_pos hself]
    · rw [if_neg hself, if_neg (by simp [hty]), if_pos hty, hde]

/-- Witness for invalid_payload_dropped: a payload missing content, one
with kind "video", one whose image content "AAA" has an invalid base64
length, and the handler dropping a packet with the latter payload. -/
theorem invalid_payload_dropped_witness :
    deserialize_clipboard_data (.obj [("type", .str "text")]) = none ∧
    deserialize_clipboard_data
      (.obj [("content", .str "x"), ("type", .str "video"),
             ("timestamp", .num 1), ("device_name", .str "A")]) = none ∧
    deserialize_clipboard_data
      (.obj [("content", .str "AAA"), ("type", .str "image"),
             ("timestamp", .num 1), ("device_name", .str "A")]) = none ∧
    handle_packet pyHash0 sampleState
      ⟨"clipboard_data", "A", "1.2.3.4", 1,
       .obj [("content", .str "AAA"), ("type", .str "image"),
             ("timestamp", .num 1), ("device_name", .str "A")]⟩ =
      (sampleState, []) :=
  ⟨invalid_payload_dropped.1 [("type", .str "text")] (Or.inl rfl),
   invalid_payload_dropped.2.1 _ (.str "video") rfl rfl,
   invalid_payload_dropped.2.2.1 _ "AAA" rfl rfl rfl,
   invalid_payload_dropped.2.2.2 pyHash0 sampleState _ rfl rfl⟩

/-- Recognizer of clipboard-callback invocations among the events. -/
def is_clipboard_event : NetEvent → Bool
  | .clipboard_received _ => true
  | _ => false

theorem handle_packet_clipboard_fresh (pyHash : String → Int) (st : UDPState)
    (p : NetworkPacket) (cd : ClipboardData)
    (hself : ¬(p.sender_name = st.device_name ∧ p.sender_ip = st.device_ip))
    (hty : p.packet_type = "clipboard_data")
    (hde : deserialize_clipboard_data p.data = some cd)
    (hcb : st.has_clipboard_callback = true)
    (hfresh : data_id pyHash p cd ∉ st.processed_clipboard_data)
    (hsz : st.processed_clipboard_data.length ≤ 99) :
    handle_packet pyHash st p =
      ({ st with processed_clipboard_data :=
           st.processed_clipboard_data ++ [data_id pyHash p cd] },
       [NetEvent.clipboard_received cd]) := by
  unfold handle_packet
  rw [if_neg hself, if_neg (by simp [hty]), if_pos hty, hde]
  simp only [hcb, if_true, if_neg hfresh]
  have hlen : ¬ (st.processed_clipboard_data ++
      [data_id pyHash p cd]).length > 100 := by
    simp only [List.length_append, List.length_singleton]
    omega
  rw [if_neg hlen]

theorem handle_packet_clipboard_dup (pyHash : String → Int) (st : UDPState)
    (p : NetworkPacket) (cd : ClipboardData)
    (hself : ¬(p.sender_name = st.device_name ∧ p.sender_ip = st.device_ip))
    (hty : p.packet_type = "clipboard_data")
    (hde : deserialize_clipboard_data p.data = some cd)
    (hcb : st.has_clipboard_callback = true)
    (hdup : data_id pyHash p cd ∈ st.processed_clipboard_data) :
    handle_packet pyHash st p = (st, []) := by
  unfold handle_packet
  rw [if_neg hself, if_neg (by simp [hty]), if_pos hty, hde]
  simp only [hcb, if_true, if_pos hdup]

/-- C2: a receiver handling two clipboard_data packets with the same
sender_name, sender_ip, payload timestamp and payload content invokes the
clipboard callback exactly once: the first delivery fires it and enters the
dedup set, the second is suppressed. (The first delivery must be novel and
the dedup set below its eviction threshold, which a pair of fresh
broadcasts satisfies.) -/
theorem dedup_idempotent (pyHash : String → Int) (st : UDPState)
    (p₁ p₂ : NetworkPacket) (cd₁ cd₂ : ClipboardData)
    (hself₁ : ¬(p₁.sender_name = st.device_name ∧ p₁.sender_ip = st.device_ip))
    (hself₂ : ¬(p₂.sender_name = st.device_name ∧ p₂.sender_ip = st.device_ip))
    (hty₁ : p₁.packet_type = "clipboard_data")
    (hty₂ : p₂.packet_type = "clipboard_data")
    (hde₁ : deserialize_clipboard_data p₁.data = some cd₁)
    (hde₂ : deserialize_clipboard_data p₂.data = some cd₂)
    (hcb : st.has_clipboard_callback = true)
    (hsn : p₁.sender_name = p₂.sender_name)
    (hsi : p₁.sender_ip = p₂.sender_ip)
    (hts : cd₁.timestamp = cd₂.timestamp)
    (hco : cd₁.content = cd₂.content)
    (hfresh : data_id pyHash p₁ cd₁ ∉ st.processed_clipboard_data)
    (hsz : st.processed_clipboard_data.length ≤ 99) :
    (handle_packet pyHash st p₁).2 = [NetEvent.clipboard_received cd₁] ∧
    (handle_packet pyHash (handle_packet pyHash st p₁).1 p₂).2 = [] ∧
    ((handle_packet pyHash st p₁).2 ++
     (handle_packet pyHash (handle_packet pyHash st p₁).1 p₂).2).countP
       is_clipboard_event = 1 := by
  have hid : data_id pyHash p₂ cd₂ = data_id pyHash p₁ cd₁ := by
    unfold data_id
    rw [hsn, hsi, hts, hco]
  have h1 := handle_packet_clipboard_fresh pyHash st p₁ cd₁
    hself₁ hty₁ hde₁ hcb hfresh hsz
  have h2 := handle_packet_clipboard_dup pyHash
    ({ st with processed_clipboard_data :=
        st.processed_clipboard_data ++ [data_id pyHash p₁ cd₁] })
    p₂ cd₂ hself₂ hty₂ hde₂ hcb
    (by rw [hid]; exact List.mem_append_right _ (List.mem_singleton_self _))
  rw [h1]
  simp only [h2]
  simp [is_clipboard_event, List.countP_cons]

/-- A sample text clipboard payload, its packet and its decoded form. -/
def samplePayload : Json :=
  .obj [("type", .str "text"), ("timestamp", .num 5),
        ("device_name", .str "X"), ("content", .str "hello")]

def samplePacket : NetworkPacket :=
  ⟨"clipboard_data", "X", "1.2.3.4", 7, samplePayload⟩

def sampleCd : ClipboardData := ⟨.text "hello", .text, 5, "X"⟩

/-- Witness for dedup_idempotent: the same concrete packet handled twice
from the empty dedup state fires the callback exactly once. -/
theorem dedup_idempotent_witness :
    deserialize_clipboard_data samplePacket.data = some sampleCd ∧
    (handle_packet pyHash0 sampleState samplePacket).2 =
      [NetEvent.clipboard_received sampleCd] ∧
    (handle_packet pyHash0 (handle_packet pyHash0 sampleState samplePacket).1
      samplePacket).2 = [] ∧
    ((handle_packet pyHash0 sampleState samplePacket).2 ++
     (handle_packet pyHash0 (handle_packet pyHash0 sampleState samplePacket).1
       samplePacket).2).countP is_clipboard_event = 1 := by
  refine ⟨rfl, ?_⟩
  have h := dedup_idempotent pyHash0 sampleState samplePacket samplePacket
    sampleCd sampleCd (by decide) (by decide) rfl rfl rfl rfl rfl rfl rfl rfl rfl
    (by simp [data_id, sampleState]) (by decide)
  exact h

/-- C10: the dedup key hashes only the first 100 characters of the
stringified content, so a second clipboard_data packet from the same sender
with the same payload timestamp whose content agrees with the first on the
first 100 characters — even if it differs beyond them — is suppressed: the
handler leaves the state unchanged and never invokes the clipboard
callback for it. -/
theorem dedup_uses_first_100_only (pyHash : String → Int) (st : UDPState)
    (p₁ p₂ : NetworkPacket) (cd₁ cd₂ : ClipboardData)
    (hself₁ : ¬(p₁.sender_name = st.device_name ∧ p₁.sender_ip = st.device_ip))
    (hself₂ : ¬(p₂.sender_name = st.device_name ∧ p₂.sender_ip = st.device_ip))
    (hty₁ : p₁.packet_type = "clipboard_data")
    (hty₂ : p₂.packet_type = "clipboard_data")
    (hde₁ : deserialize_clipboard_data p₁.data = some cd₁)
    (hde₂ : deserialize_clipboard_data p₂.data = some cd₂)
    (hcb : st.has_clipboard_callback = true)
    (hsn : p₁.sender_name = p₂.sender_name)
    (hsi : p₁.sender_ip = p₂.sender_ip)
    (hts : cd₁.timestamp = cd₂.timestamp)
    (htake : (str_of_content cd₁.content).take 100 =
             (str_of_content cd₂.content).take 100)
    (hfresh : data_id pyHash p₁ cd₁ ∉ st.processed_clipboard_data)
    (hsz : st.processed_clipboard_data.length ≤ 99) :
    handle_packet pyHash (handle_packet pyHash st p₁).1 p₂ =
      ((handle_packet pyHash st p₁).1, []) ∧
    ((handle_packet pyHash (handle_packet pyHash st p₁).1 p₂).2).countP
      is_clipboard_event = 0 := by
  have hid : data_id pyHash p₂ cd₂ = data_id pyHash p₁ cd₁ := by
    unfold data_id
    rw [hsn, hsi, hts, htake]
  have h1 := handle_packet_clipboard_fresh pyHash st p₁ cd₁
    hself₁ hty₁ hde₁ hcb hfresh hsz
  have h2 := handle_packet_clipboard_dup pyHash
    ({ st with processed_clipboard_data :=
        st.processed_clipboard_data ++ [data_id pyHash p₁ cd₁] })
    p₂ cd₂ hself₂ hty₂ hde₂ hcb
    (by rw [hid]; exact List.mem_append_right _ (List.mem_singleton_self _))
  rw [h1]
  simp only [h2]
  simp

/-- Text content 101 characters long: 100 copies of a and one b. -/
def longContentB : String := String.mk (List.replicate 100 'a' ++ ['b'])

/-- Text content 101 characters long: 100 copies of a and one c — it agrees
with longContentB on the first 100 characters and differs at the 101st. -/
def longContentC : String := String.mk (List.replicate 100 'a' ++ ['c'])

def longPacketB : NetworkPacket :=
  ⟨"clipboard_data", "X", "1.2.3.4", 7,
   .obj [("type", .str "text"), ("timestamp", .num 5),
         ("device_name", .str "X"), ("content", .str longContentB)]⟩

def longPacketC : NetworkPacket :=
  ⟨"clipboard_data", "X", "1.2.3.4", 8,
   .obj [("type", .str "text"), ("timestamp", .num 5),
         ("device_name", .str "X"), ("content", .str longContentC)]⟩

def longCdB : ClipboardData := ⟨.text longContentB, .text, 5, "X"⟩

def longCdC : ClipboardData := ⟨.text longContentC, .text, 5, "X"⟩

set_option maxRecDepth 40000 in
/-- Witness for dedup_uses_first_100_only: two concrete packets whose contents
differ only at character 101; the second is suppressed. -/
theorem dedup_uses_first_100_only_witness :
    longContentB ≠ longContentC ∧
    (str_of_content longCdB.content).take 100 =
      (str_of_content longCdC.content).take 100 ∧
    handle_packet pyHash0 (handle_packet pyHash0 sampleState longPacketB).1
      longPacketC =
      ((handle_packet pyHash0 sampleState longPacketB).1, []) := by
  refine ⟨by decide, by decide, ?_⟩
  exact (dedup_uses_first_100_only pyHash0 sampleState longPacketB longPacketC
    longCdB longCdC (by decide) (by decide) rfl rfl rfl rfl rfl rfl rfl rfl
    (by decide) (by simp [data_id, sampleState]) (by decide)).1

theorem try_bind_exhausted (inUse : Nat → Bool) :
    ∀ (n port : Nat), (∀ i, i < n → inUse (port + i) = true) →
      try_bind inUse n port = none := by
  intro n
  induction n with
  | zero => intro port _; rfl
  | succ m ih =>
      intro port h
      unfold try_bind
      rw [show inUse port = true from by simpa using h 0 (Nat.succ_pos m)]
      simp only [if_true]
      exact ih (port + 1) (fun i hi => by
        have := h (i + 1) (by omega)
        simpa [Nat.add_assoc, Nat.add_comm 1 i] using this)

theorem try_bind_finds (inUse : Nat → Bool) :
    ∀ (n i port : Nat), i < n → (∀ j, j < i → inUse (port + j) = true) →
      inUse (port + i) = false →
      try_bind inUse n port = some (port + i) := by
  intro n
  induction n with
  | zero => intro i port hi _ _; omega
  | succ m ih =>
      intro i port hi hbusy hfree
      unfold try_bind
      cases i with
      | zero =>
          simp only [Nat.add_zero] at hfree
          rw [hfree]
          simp
      | succ k =>
          rw [show inUse port = true from by simpa using hbusy 0 (Nat.succ_pos k)]
          simp only [if_true]
          have := ih k (port + 1) (by omega)
            (fun j hj => by
              have := hbusy (j + 1) (by omega)
              simpa [Nat.add_assoc, Nat.add_comm 1 j] using this)
            (by
              have : port + 1 + k = port + (k + 1) := by omega
              rw [this]
              exact hfree)
          rw [this]
          congr 1
          omega

/-- C6 counterexample: with every port in use, the ten bind attempts are
exhausted, yet start_listening reports ok to its caller — the raise happens
inside the listener thread, where the enclosing except of _listen_loop
swallows it into a log line, so the caller never sees a hard error. -/
theorem bind_exhaustion_not_reported_to_caller :
    start_listening_outcome (fun _ => true) 5555 =
      (StartResult.ok, ListenSetup.setup_error_logged) := rfl

/-- C6 amended: when the requested UDP port is in use, binding is retried
on the next port for up to 10 attempts total; a free port among the first
ten probes is bound. When all ten attempts are exhausted, the listener
raises internally, but the exception is caught and only logged inside the
background thread, and the caller of start_listening observes a normal
return — the failure is NOT reported to it as a hard error. -/
theorem bind_retry_bounded_and_failure_swallowed :
    (∀ (inUse : Nat → Bool) (port i : Nat), i < 10 →
      (∀ j, j < i → inUse (port + j) = true) → inUse (port + i) = false →
      listen_loop_setup inUse port = .bound (port + i)) ∧
    (∀ (inUse : Nat → Bool) (port : Nat),
      (∀ i, i < 10 → inUse (port + i) = true) →
      listen_loop_setup inUse port = .setup_error_logged ∧
      (start_listening_outcome inUse port).1 = .ok) := by
  constructor
  · intro inUse port i hi hbusy hfree
    unfold listen_loop_setup
    rw [try_bind_finds inUse 10 i port hi hbusy hfree]
  · intro inUse port h
    constructor
    · unfold listen_loop_setup
      rw [try_bind_exhausted inUse 10 port h]
    · rfl

/-- Witness for bind_retry_bounded_and_failure_swallowed: ports 6000 and
6001 busy and 6002 free binds 6002; every port busy is exhausted and the
caller still sees ok. -/
theorem bind_retry_bounded_witness :
    listen_loop_setup (fun p => decide (p < 6002)) 6000 = .bound 6002 ∧
    listen_loop_setup (fun _ => true) 6000 = .setup_error_logged ∧
    (start_listening_outcome (fun _ => true) 6000).1 = .ok :=
  ⟨bind_retry_bounded_and_failure_swallowed.1 (fun p => decide (p < 6002))
    6000 2 (by omega) (fun j hj => by interval_cases j <;> decide) (by decide),
   (bind_retry_bounded_and_failure_swallowed.2 (fun _ => true) 6000
    (fun i _ => rfl)).1,
   (bind_retry_bounded_and_failure_swallowed.2 (fun _ => true) 6000
    (fun i _ => rfl)).2⟩

theorem dictGet_dictSet_self {β : Type} (l : List (String × β)) (k : String) (v : β) :
    dictGet (dictSet l k v) k = some v := by
  induction l with
  | nil => simp [dictSet, dictGet]
  | cons e rest ih =>
      obtain ⟨k₁, v₁⟩ := e
      by_cases h : k₁ = k
      · simp [dictSet, h, dictGet]
      · simp [dictSet, h, dictGet, ih]

theorem handle_packet_presence_devices (pyHash : String → Int) (st : UDPState)
    (p : NetworkPacket)
    (hself : ¬(p.sender_name = st.device_name ∧ p.sender_ip = st.device_ip))
    (hpres : p.packet_type = "device_announce" ∨
             p.packet_type = "device_discovery" ∨
             p.packet_type = "device_heartbeat") :
    (handle_packet pyHash st p).1.connected_devices =
      dictSet st.connected_devices (p.sender_name ++ "@" ++ p.sender_ip)
        ⟨p.sender_name, p.sender_ip, p.timestamp, platform_of p.data⟩ := by
  unfold handle_packet update_device
  rw [if_neg hself, if_pos hpres]
  by_cases hd : p.packet_type = "device_discovery" <;> simp [hd]

/-- C8 counterexample: last_seen is overwritten with each presence packet's
own timestamp, so a stale packet (carried timestamp 5 processed after one
carrying 10) makes the stored last_seen decrease from 10 to 5. -/
theorem last_seen_decreases_on_stale_packet :
    (dictGet (handle_packet pyHash0 sampleState
        ⟨"device_announce", "A", "2.2.2.2", 10, .null⟩).1.connected_devices
      "A@2.2.2.2").map DeviceInfo.last_seen = some 10 ∧
    (dictGet (handle_packet pyHash0
        (handle_packet pyHash0 sampleState
          ⟨"device_announce", "A", "2.2.2.2", 10, .null⟩).1
        ⟨"device_announce", "A", "2.2.2.2", 5, .null⟩).1.connected_devices
      "A@2.2.2.2").map DeviceInfo.last_seen = some 5 ∧
    (5 : Int) < 10 :=
  ⟨rfl, rfl, by decide⟩

/-- C8 amended: the registry entry for a device id is refreshed on every
presence packet (announce, discovery, heartbeat) from that id — clipboard
packets do not touch it — and the stored last_seen is set to that packet's
own timestamp, unconditionally; hence it is non-decreasing across updates
only when successive packets carry non-decreasing timestamps, and a stale
packet lowers it (see the counterexample). -/
theorem last_seen_updated_per_presence_packet (pyHash : String → Int)
    (st : UDPState) (p : NetworkPacket)
    (hself : ¬(p.sender_name = st.device_name ∧ p.sender_ip = st.device_ip))
    (hpres : p.packet_type = "device_announce" ∨
             p.packet_type = "device_discovery" ∨
             p.packet_type = "device_heartbeat") :
    dictGet (handle_packet pyHash st p).1.connected_devices
        (p.sender_name ++ "@" ++ p.sender_ip) =
      some ⟨p.sender_name, p.sender_ip, p.timestamp, platform_of p.data⟩ ∧
    (∀ d₀ dnew : DeviceInfo,
      dictGet st.connected_devices (p.sender_name ++ "@" ++ p.sender_ip) = some d₀ →
      dictGet (handle_packet pyHash st p).1.connected_devices
        (p.sender_name ++ "@" ++ p.sender_ip) = some dnew →
      d₀.last_seen ≤ p.timestamp → d₀.last_seen ≤ dnew.last_seen) := by
  have hdev := handle_packet_presence_devices pyHash st p hself hpres
  constructor
  · rw [hdev]
    exact dictGet_dictSet_self _ _ _
  · intro d₀ dnew hold hnew hle
    rw [hdev, dictGet_dictSet_self] at hnew
    cases hnew
    exact hle

/-- Witness for last_seen_updated_per_presence_packet at a concrete
announce packet handled from the sample state. -/
theorem last_seen_updated_witness :
    dictGet (handle_packet pyHash0 sampleState
        ⟨"device_heartbeat", "B", "3.3.3.3", 42, .null⟩).1.connected_devices
      "B@3.3.3.3" = some ⟨"B", "3.3.3.3", 42, "Unknown"⟩ :=
  (last_seen_updated_per_presence_packet pyHash0 sampleState
    ⟨"device_heartbeat", "B", "3.3.3.3", 42, .null⟩
    (by decide) (by decide)).1

/-- Recognizer of a device_left event for the device keyed id. -/
def left_event_for (id : String) : NetEvent → Bool
  | .device_left dv => dv.name ++ "@" ++ dv.ip_address == id
  | _ => false

theorem dictGet_none_of_not_mem_keys {β : Type} :
    ∀ (l : List (String × β)) (k : String), k ∉ l.map Prod.fst →
      dictGet l k = none := by
  intro l
  induction l with
  | nil => intro k _; rfl
  | cons e rest ih =>
      obtain ⟨k₁, v₁⟩ := e
      intro k hk
      simp only [List.map_cons, List.mem_cons, not_or] at hk
      show (if k₁ = k then some v₁ else dictGet rest k) = none
      rw [if_neg (fun h => hk.1 h.symm)]
      exact ih k hk.2

theorem dictGet_filter_none {β : Type} (q : String × β → Bool) :
    ∀ (l : List (String × β)) (k : String) (v : β),
      (l.map Prod.fst).Nodup → (k, v) ∈ l → q (k, v) = false →
      dictGet (l.filter q) k = none := by
  intro l
  induction l with
  | nil => intro k v _ hmem _; simp at hmem
  | cons e rest ih =>
      obtain ⟨k₁, v₁⟩ := e
      intro k v hnd hmem hq
      simp only [List.map_cons, List.nodup_cons] at hnd
      rcases List.mem_cons.mp hmem with heq | hmem'
      · injection heq with hk hv
        subst hk
        subst hv
        rw [List.filter_cons, if_neg (by simp [hq])]
        apply dictGet_none_of_not_mem_keys
        intro hkmem
        refine hnd.1 ?_
        obtain ⟨e', he', hke⟩ := List.mem_map.mp hkmem
        exact hke ▸ List.mem_map_of_mem Prod.fst (List.mem_of_mem_filter he')
      · have hk₁ : k₁ ≠ k := by
          intro h
          subst h
          exact hnd.1 (List.mem_map_of_mem Prod.fst hmem')
        rw [List.filter_cons]
        by_cases hqh : q (k₁, v₁) = true
        · rw [if_pos (by simp [hqh])]
          show (if k₁ = k then some v₁ else dictGet (rest.filter q) k) = none
          rw [if_neg hk₁]
          exact ih k v hnd.2 hmem' hq
        · rw [if_neg (by simpa using hqh)]
          exact ih k v hnd.2 hmem' hq

theorem countP_left_events_zero (p : String × DeviceInfo → Bool) (id : String) :
    ∀ l : List (String × DeviceInfo), id ∉ l.map Prod.fst →
      (∀ e ∈ l, e.1 = e.2.name ++ "@" ++ e.2.ip_address) →
      ((l.filter p).map (fun e => NetEvent.device_left e.2)).countP
        (left_event_for id) = 0 := by
  intro l
  induction l with
  | nil => intro _ _; rfl
  | cons e rest ih =>
      obtain ⟨k₁, v₁⟩ := e
      intro hid hkey
      simp only [List.map_cons, List.mem_cons, not_or] at hid
      have hkh : k₁ = v₁.name ++ "@" ++ v₁.ip_address :=
        hkey (k₁, v₁) (List.mem_cons_self _ _)
      have hne : left_event_for id (NetEvent.device_left v₁) = false := by
        simp only [left_event_for]
        rw [beq_eq_false_iff_ne]
        intro h
        exact hid.1 (hkh.trans h).symm
      rw [List.filter_cons]
      by_cases hq : p (k₁, v₁) = true
      · rw [if_pos (by simp [hq])]
        simp only [List.map_cons, List.countP_cons, hne]
        simpa using ih hid.2 (fun e he => hkey e (List.mem_cons_of_mem _ he))
      · rw [if_neg (by simpa using hq)]
        exact ih hid.2 (fun e he => hkey e (List.mem_cons_of_mem _ he))

theorem countP_left_events_one (p : String × DeviceInfo → Bool) (id : String)
    (d : DeviceInfo) :
    ∀ l : List (String × DeviceInfo),
      (l.map Prod.fst).Nodup → (id, d) ∈ l → p (id, d) = true →
      (∀ e ∈ l, e.1 = e.2.name ++ "@" ++ e.2.ip_address) →
      ((l.filter p).map (fun e => NetEvent.device_left e.2)).countP
        (left_event_for id) = 1 := by
  intro l
  induction l with
  | nil => intro _ hmem _ _; simp at hmem
  | cons e rest ih =>
      obtain ⟨k₁, v₁⟩ := e
      intro hnd hmem hp hkey
      simp only [List.map_cons, List.nodup_cons] at hnd
      rcases List.mem_cons.mp hmem with heq | hmem'
      · injection heq with hk hv
        subst hk
        subst hv
        rw [List.filter_cons, if_pos (by simp [hp])]
        have hkh : id = d.name ++ "@" ++ d.ip_address :=
          hkey (id, d) (List.mem_cons_self _ _)
        have hyes : left_event_for id (NetEvent.device_left d) = true := by
          simp only [left_event_for]
          rw [beq_iff_eq]
          exact hkh.symm
        simp only [List.map_cons, List.countP_cons, hyes]
        rw [countP_left_events_zero p id rest hnd.1
          (fun e he => hkey e (List.mem_cons_of_mem _ he))]
        simp
      · have hkh : k₁ = v₁.name ++ "@" ++ v₁.ip_address :=
          hkey (k₁, v₁) (List.mem_cons_self _ _)
        have hk₁ : k₁ ≠ id := by
          intro h
          subst h
          exact hnd.1 (List.mem_map_of_mem Prod.fst hmem')
        have hne : left_event_for id (NetEvent.device_left v₁) = false := by
          simp only [left_event_for]
          rw [beq_eq_false_iff_ne]
          intro h
          exact hk₁ (hkh.trans h)
        rw [List.filter_cons]
        by_cases hq : p (k₁, v₁) = true
        · rw [if_pos (by simp [hq])]
          simp only [List.map_cons, List.countP_cons, hne]
          simpa using ih hnd.2 hmem' hp
            (fun e he => hkey e (List.mem_cons_of_mem _ he))
        · rw [if_neg (by simpa using hq)]
          exact ih hnd.2 hmem' hp
            (fun e he => hkey e (List.mem_cons_of_mem _ he))

/-- C7: a device registered under id and then silent for longer than the
presence timeout is removed by the periodic cleanup sweep, and exactly one
device_left event fires for it. (The registry keys are the unique name@ip
ids the handler maintains.) -/
theorem sweep_removes_expired (current_time device_timeout : Int)
    (st : UDPState) (id : String) (d : DeviceInfo)
    (hnd : (st.connected_devices.map Prod.fst).Nodup)
    (hkey : ∀ e ∈ st.connected_devices, e.1 = e.2.name ++ "@" ++ e.2.ip_address)
    (hmem : (id, d) ∈ st.connected_devices)
    (hexp : current_time - d.last_seen > device_timeout)
    (hcb : st.has_device_callback = true) :
    dictGet (cleanup_devices_step current_time device_timeout st).1.connected_devices
      id = none ∧
    ((cleanup_devices_step current_time device_timeout st).2).countP
      (left_event_for id) = 1 := by
  unfold cleanup_devices_step
  constructor
  · exact dictGet_filter_none _ st.connected_devices id d hnd hmem
      (by simp [hexp])
  · simp only [hcb, if_true]
    exact countP_left_events_one _ id d st.connected_devices hnd hmem
      (by simp [hexp]) hkey

/-- Witness for sweep_removes_expired: a single device last seen at time 0,
swept at time 100 with timeout 15. -/
theorem sweep_removes_expired_witness :
    dictGet (cleanup_devices_step 100 15
        { sampleState with
          connected_devices := [("A@1.1.1.1", ⟨"A", "1.1.1.1", 0, "Unknown"⟩)] }
      ).1.connected_devices "A@1.1.1.1" = none ∧
    ((cleanup_devices_step 100 15
        { sampleState with
          connected_devices := [("A@1.1.1.1", ⟨"A", "1.1.1.1", 0, "Unknown"⟩)] }
      ).2).countP (left_event_for "A@1.1.1.1") = 1 :=
  sweep_removes_expired 100 15
    { sampleState with
      connected_devices := [("A@1.1.1.1", ⟨"A", "1.1.1.1", 0, "Unknown"⟩)] }
    "A@1.1.1.1" ⟨"A", "1.1.1.1", 0, "Unknown"⟩
    (by simp) (by simp) (by simp) (by decide) (by decide)

theorem dequeAppend_of_lt {α : Type} (cap : Nat) (xs : List α) (x : α)
    (h : xs.length < cap) : dequeAppend cap xs x = xs ++ [x] := by
  unfold dequeAppend
  rw [show xs.length + 1 - cap = 0 from by omega]
  rfl

theorem dequeAppend_length_le {α : Type} (cap : Nat) (xs : List α) (x : α)
    (h : xs.length ≤ cap) : (dequeAppend cap xs x).length ≤ cap := by
  unfold dequeAppend
  rw [List.length_drop, List.length_append]
  simp only [List.length_singleton]
  omega

theorem capture_all_of_room :
    ∀ (ds : List ClipboardData) (st : MgrState),
      st.history.length + ds.length ≤ st.max_history →
      (capture_all st ds).history = st.history ++ ds.map (stored_entry st.data_dir) ∧
      (capture_all st ds).max_history = st.max_history ∧
      (capture_all st ds).data_dir = st.data_dir := by
  intro ds
  induction ds with
  | nil => intro st _; simp [capture_all]
  | cons d rest ih =>
      intro st hroom
      have hstep2 : capture_all st (d :: rest) =
          capture_all (on_local_clipboard_change st d).1 rest := rfl
      have hstep : (on_local_clipboard_change st d).1 =
          { st with history := st.history ++ [stored_entry st.data_dir d] } := by
        have hda := dequeAppend_of_lt st.max_history st.history
          (stored_entry st.data_dir d) (by simp at hroom; omega)
        show ({ st with history := dequeAppend st.max_history st.history (stored_entry st.data_dir d) } : MgrState) = _
        rw [hda]
      rw [hstep2, hstep]
      have := ih { st with history := st.history ++ [stored_entry st.data_dir d] }
        (by simp at hroom ⊢; omega)
      obtain ⟨h1, h2, h3⟩ := this
      refine ⟨?_, h2, h3⟩
      rw [h1]
      simp [List.append_assoc]

/-- C9: with history capacity N, after N captures from an empty history the
history holds all N entries in order; after an N+1-st capture the length is
still N, exactly the earliest entry has been evicted and the remaining
entries keep their order; and one capture step never grows the history
beyond its capacity. (Entries are retained as the manager stores them: an
image capture's content is replaced in place by its saved file path.) -/
theorem history_bound (N : Nat) (dir : String)
    (ds : List ClipboardData) (e : ClipboardData)
    (hN : 0 < N) (hlen : ds.length = N) :
    ((capture_all ⟨N, [], dir⟩ ds).history = ds.map (stored_entry dir) ∧
     (capture_all ⟨N, [], dir⟩ ds).history.length = N) ∧
    ((capture_all ⟨N, [], dir⟩ (ds ++ [e])).history =
       (ds.map (stored_entry dir)).drop 1 ++ [stored_entry dir e] ∧
     (capture_all ⟨N, [], dir⟩ (ds ++ [e])).history.length = N) ∧
    (∀ (st : MgrState) (d : ClipboardData),
      st.history.length ≤ st.max_history →
      ((on_local_clipboard_change st d).1).history.length ≤ st.max_history) := by
  obtain ⟨hhist, hcap, hdir⟩ := capture_all_of_room ds ⟨N, [], dir⟩ (by simp [hlen])
  have hhist' : (capture_all ⟨N, [], dir⟩ ds).history =
      List.map (stored_entry dir) ds := by simpa using hhist
  have hcap' : (capture_all ⟨N, [], dir⟩ ds).max_history = N := hcap
  have hdir' : (capture_all ⟨N, [], dir⟩ ds).data_dir = dir := hdir
  have hmlen : (List.map (stored_entry dir) ds).length = N := by simp [hlen]
  have hlenN : (capture_all ⟨N, [], dir⟩ ds).history.length = N := by
    rw [hhist', hmlen]
  have happ : capture_all ⟨N, [], dir⟩ (ds ++ [e]) =
      (on_local_clipboard_change (capture_all ⟨N, [], dir⟩ ds) e).1 := by
    unfold capture_all
    rw [List.foldl_append]
    rfl
  have hdrop : (capture_all ⟨N, [], dir⟩ (ds ++ [e])).history =
      (List.map (stored_entry dir) ds).drop 1 ++ [stored_entry dir e] := by
    rw [happ]
    show dequeAppend (capture_all ⟨N, [], dir⟩ ds).max_history
      (capture_all ⟨N, [], dir⟩ ds).history
      (stored_entry (capture_all ⟨N, [], dir⟩ ds).data_dir e) = _
    rw [hdir', hcap', hhist']
    unfold dequeAppend
    rw [show (List.map (stored_entry dir) ds).length + 1 - N = 1 from by
      rw [hmlen]; omega]
    rw [List.drop_append_of_le_length (by rw [hmlen]; omega)]
  refine ⟨⟨hhist', hlenN⟩, ⟨hdrop, ?_⟩, ?_⟩
  · rw [hdrop, List.length_append, List.length_drop, hmlen]
    simp only [List.length_singleton]
    omega
  · intro st d h
    exact dequeAppend_length_le _ _ _ h

/-- Witness for history_bound: capacity 2, three text captures; after the
third, the first entry is gone and the second and third remain in order. -/
theorem history_bound_witness :
    (capture_all ⟨2, [], "data"⟩
      [⟨.text "one", .text, 1, "X"⟩, ⟨.text "two", .text, 2, "X"⟩]).history =
      [⟨.text "one", .text, 1, "X"⟩, ⟨.text "two", .text, 2, "X"⟩] ∧
    (capture_all ⟨2, [], "data"⟩
      ([⟨.text "one", .text, 1, "X"⟩, ⟨.text "two", .text, 2, "X"⟩] ++
        [⟨.text "three", .text, 3, "X"⟩])).history =
      [⟨.text "two", .text, 2, "X"⟩, ⟨.text "three", .text, 3, "X"⟩] := by
  have h := history_bound 2 "data"
    [⟨.text "one", .text, 1, "X"⟩, ⟨.text "two", .text, 2, "X"⟩]
    ⟨.text "three", .text, 3, "X"⟩ (by decide) rfl
  refine ⟨?_, ?_⟩
  · rw [h.1.1]
    rfl
  · rw [h.2.1.1]
    rfl

/-- A persistent-transport state with two live connections and the device
for the first connection registered under its name@ip id, as the
device_info handler stores it. -/
def sampleWSState : WSState :=
  ⟨["10.0.0.7:51000", "10.0.0.8:52000"],
   [("Bob@10.0.0.7", ⟨"Bob", "10.0.0.7", 50, "Linux"⟩)], true⟩

/-- Send succeeds except on the first connection. -/
def sampleSendOk : String → Bool := fun c => c != "10.0.0.7:51000"

/-- C5: evaluation at the failing input. When sending to one open
connection fails during a broadcast, that connection is removed and every
other connection remains and still receives the packet — but NO device_left
event is fired: the broadcast path emits no events at all, and the
disconnect handler that is supposed to fire it looks the departing client
up under its ip:port id while the registry is keyed name@ip, so the lookup
misses, the device entry survives, and the left event is lost. -/
theorem ws_send_failure_fires_no_left_event :
    (ws_broadcast_packet sampleSendOk sampleWSState).1.clients =
      ["10.0.0.8:52000"] ∧
    (ws_broadcast_packet sampleSendOk sampleWSState).2.1 =
      ["10.0.0.8:52000"] ∧
    (ws_broadcast_packet sampleSendOk sampleWSState).2.2 = [] ∧
    (ws_handle_client_finally (ws_broadcast_packet sampleSendOk sampleWSState).1
      "10.0.0.7:51000").2 = [] ∧
    dictGet (ws_handle_client_finally
        (ws_broadcast_packet sampleSendOk sampleWSState).1
        "10.0.0.7:51000").1.connected_devices "Bob@10.0.0.7" =
      some ⟨"Bob", "10.0.0.7", 50, "Linux"⟩ ∧
    (ws_handle_client_finally sampleWSState "10.0.0.7:51000").2 = [] :=
  ⟨rfl, rfl, rfl, rfl, rfl, rfl⟩
